import Mathlib

/-!
Shallow embedding of the financial-projection engine of
`src/components/calculator/FinanceInputForm.tsx` (the `@/lib/calculations`
module, source lines 663-1132).

Conventions of the embedding:
* JavaScript `number` values are modelled as real numbers (`ℝ`).  Division by
  zero, which in JavaScript yields `NaN`/`Infinity`, is modelled by Lean's
  convention `x / 0 = 0`; the one place where the source actually divides by
  zero (the unguarded annuity factors of the goal-based branch) is flagged at
  the corresponding theorem.
* Optional input fields (`currentInvestments?`, `monthlySavings?`,
  `monthlyInvestment?`, `savingsInterestRate?`) are read in the source only
  through `x || 0`, which maps `undefined` and `0` to `0` and any other number
  to itself; for every defined number `x`, `x || 0 = x`, so they are modelled
  as plain `ℝ` fields.
* `timeHorizon` is a number in TypeScript; per the data model (spec §3) it is
  a positive integer count of years, and every use in the engine is as an
  integer exponent or `* 12` month count, so it is modelled as `ℕ`.
* The result fields `yearsToFI` / `totalMonthsToFI` are natural numbers in
  every code path except the unreached-target branch of
  `calculateContributionTimeline`, which stores JavaScript `Infinity`; they
  are modelled as `Option ℕ` with `none` standing for `Infinity`.
* `Math.pow` with natural exponent is `^ : ℝ → ℕ → ℝ`; the one fractional
  exponent, `Math.pow(1 + inflationRate, 1/12)`, is real exponentiation
  (`Real.rpow`).  `Math.floor((low+high)/2)` on nonnegative integers is `ℤ`
  division (which in Lean is floor division, agreeing with `Math.floor` of
  the exact quotient on all integers).  `Math.round` is Mathlib's `round`
  (`round x = ⌊x + 1/2⌋`), which agrees with JavaScript's half-up rounding.
-/

noncomputable section

/-- The `FinancialInputs` interface (source lines 667-679).  Optional fields
are modelled as plain reals, see the header comment. -/
structure FinancialInputs where
  currentIncome : ℝ
  monthlyExpenses : ℝ
  currentSavings : ℝ
  currentInvestments : ℝ
  targetFINumber : ℝ
  timeHorizon : ℕ
  annualReturn : ℝ
  inflationRate : ℝ
  monthlySavings : ℝ
  monthlyInvestment : ℝ
  savingsInterestRate : ℝ

/-- The `CalculationResults` interface (source lines 681-696).
`calculatedFINumber`, `baseFINumber` and `targetAtCompletion` are optional in
the source and absent in the modes that do not produce them, hence `Option ℝ`.
`yearsToFI` / `totalMonthsToFI` use `none` for JavaScript `Infinity`. -/
structure CalculationResults where
  requiredMonthlySavings : ℝ
  futureValueOfCurrentSavings : ℝ
  inflationAdjustedFINumber : ℝ
  yearsToFI : Option ℕ
  monthsToFI : ℕ
  totalMonthsToFI : Option ℕ
  calculatedFINumber : Option ℝ
  baseFINumber : Option ℝ
  suggestedMonthlySavings : ℝ
  suggestedMonthlyInvestment : ℝ
  totalFutureSavings : ℝ
  totalFutureInvestment : ℝ
  targetAtCompletion : Option ℝ

/-- The mode tag `'goal-based' | 'time-based' | 'contribution-based'` of
`calculateFinancialIndependence` (source line 822). -/
inductive CalcMode where
  | goalBased
  | timeBased
  | contributionBased
deriving DecidableEq

/-- Embedding of `calculateFutureValue` (source lines 702-708): `FV = PV × (1 + r)^n`. -/
def calculateFutureValue (principal annualRate : ℝ) (years : ℕ) : ℝ :=
  principal * (1 + annualRate) ^ years

/-- Embedding of `calculateInflationAdjustedAmount` (source lines 755-761):
`Adjusted = Amount × (1 + i)^n`. -/
def calculateInflationAdjustedAmount (amount inflationRate : ℝ) (years : ℕ) : ℝ :=
  amount * (1 + inflationRate) ^ years

/-- The `baseTarget` of `calculateContributionTimeline` (source line 982):
`inputs.targetFINumber || inputs.monthlyExpenses * 12 * 25`.  JavaScript `||`
on numbers returns the right operand exactly when the left one is falsy
(here: `0`). -/
def baseTarget (inputs : FinancialInputs) : ℝ :=
  if inputs.targetFINumber = 0 then inputs.monthlyExpenses * 12 * 25
  else inputs.targetFINumber

/-- The record returned by the `projectPortfolio` closure of
`calculateContributionTimeline` (source lines 984-1005). -/
structure PortfolioProjection where
  total : ℝ
  target : ℝ
  savingsFutureValue : ℝ
  investmentsFutureValue : ℝ

/-- The `projectPortfolio` closure of `calculateContributionTimeline`
(source lines 984-1005).  The captured locals (source lines 975-982) are
inlined: `monthlySavingsRate = (savingsInterestRate || 0) / 12`,
`monthlyInvestmentRate = annualReturn / 12`,
`monthlyInflationRate = Math.pow(1 + inflationRate, 1/12) - 1`. -/
def projectPortfolio (inputs : FinancialInputs) (months : ℕ) : PortfolioProjection :=
  let monthlySavingsRate := inputs.savingsInterestRate / 12
  let monthlyInvestmentRate := inputs.annualReturn / 12
  let monthlyInflationRate := (1 + inputs.inflationRate) ^ ((1 : ℝ) / 12) - 1
  let targetAtMonth := baseTarget inputs * (1 + monthlyInflationRate) ^ months
  let savingsFutureValue :=
    if monthlySavingsRate = 0 then
      inputs.currentSavings + inputs.monthlySavings * months
    else
      inputs.currentSavings * (1 + monthlySavingsRate) ^ months +
        inputs.monthlySavings * (((1 + monthlySavingsRate) ^ months - 1) / monthlySavingsRate)
  let investmentsFutureValue :=
    if monthlyInvestmentRate = 0 then
      inputs.currentInvestments + inputs.monthlyInvestment * months
    else
      inputs.currentInvestments * (1 + monthlyInvestmentRate) ^ months +
        inputs.monthlyInvestment * (((1 + monthlyInvestmentRate) ^ months - 1) / monthlyInvestmentRate)
  { total := savingsFutureValue + investmentsFutureValue
    target := targetAtMonth
    savingsFutureValue := savingsFutureValue
    investmentsFutureValue := investmentsFutureValue }

/-- The success predicate probed by the binary search of
`calculateContributionTimeline` (source line 1034):
`projection.total >= projection.target` at a given month. -/
def probe (inputs : FinancialInputs) (months : ℕ) : Prop :=
  (projectPortfolio inputs months).total ≥ (projectPortfolio inputs months).target

instance probeDecidable (inputs : FinancialInputs) : DecidablePred (probe inputs) :=
  fun _ => Real.decidableLE _ _

/-- The `while (low <= high)` binary-search loop of
`calculateContributionTimeline` (source lines 1030-1041), with the mutable
state `(low, high, result, found)` passed explicitly.
`mid = Math.floor((low + high) / 2)` is `ℤ` floor division. -/
def searchLoop (P : ℤ → Prop) [DecidablePred P] (low high result : ℤ) (found : Bool) :
    ℤ × Bool :=
  if _h : low ≤ high then
    if P ((low + high) / 2) then
      searchLoop P low ((low + high) / 2 - 1) ((low + high) / 2) true
    else
      searchLoop P ((low + high) / 2 + 1) high result found
  else (result, found)
termination_by (high + 1 - low).toNat
decreasing_by
  · omega
  · omega

/-- Embedding of `calculateContributionTimeline` (source lines 974-1061).  The early
`return` for a month-0 success becomes the first branch; the search predicate
applies the probe at `m.toNat` (the loop only ever probes nonnegative
months). -/
def calculateContributionTimeline (inputs : FinancialInputs) : CalculationResults :=
  let monthlySavingsContribution := inputs.monthlySavings
  let monthlyInvestmentContribution := inputs.monthlyInvestment
  let startingPosition := projectPortfolio inputs 0
  if startingPosition.total ≥ startingPosition.target then
    { requiredMonthlySavings := monthlySavingsContribution + monthlyInvestmentContribution
      futureValueOfCurrentSavings := startingPosition.total
      inflationAdjustedFINumber := startingPosition.target
      yearsToFI := some 0
      monthsToFI := 0
      totalMonthsToFI := some 0
      calculatedFINumber := none
      baseFINumber := some (baseTarget inputs)
      suggestedMonthlySavings := monthlySavingsContribution
      suggestedMonthlyInvestment := monthlyInvestmentContribution
      totalFutureSavings := startingPosition.savingsFutureValue
      totalFutureInvestment := startingPosition.investmentsFutureValue
      targetAtCompletion := some startingPosition.target }
  else
    let sr := searchLoop (fun m => probe inputs m.toNat) 0 1200 1200 false
    let result := sr.1
    let found := sr.2
    let completion := projectPortfolio inputs result.toNat
    { requiredMonthlySavings := monthlySavingsContribution + monthlyInvestmentContribution
      futureValueOfCurrentSavings := completion.total
      inflationAdjustedFINumber := completion.target
      yearsToFI := if found then some (result.toNat / 12) else none
      monthsToFI := if found then result.toNat % 12 else 0
      totalMonthsToFI := if found then some result.toNat else none
      calculatedFINumber := none
      baseFINumber := some (baseTarget inputs)
      suggestedMonthlySavings := monthlySavingsContribution
      suggestedMonthlyInvestment := monthlyInvestmentContribution
      totalFutureSavings := completion.savingsFutureValue
      totalFutureInvestment := completion.investmentsFutureValue
      targetAtCompletion := some completion.target }

/-- Embedding of `calculateTimeBasedStrategy` (source lines 905-972). -/
def calculateTimeBasedStrategy (inputs : FinancialInputs) : CalculationResults :=
  let baseFINumber := inputs.monthlyExpenses * 12 * 25
  let futureFINumber :=
    calculateInflationAdjustedAmount baseFINumber inputs.inflationRate inputs.timeHorizon
  let futureValueOfCash :=
    calculateFutureValue inputs.currentSavings inputs.savingsInterestRate inputs.timeHorizon
  let futureValueOfInvestments :=
    calculateFutureValue inputs.currentInvestments inputs.annualReturn inputs.timeHorizon
  let futureValueOfCurrentAssets := futureValueOfCash + futureValueOfInvestments
  let gap := futureFINumber - futureValueOfCurrentAssets
  if gap > 0 then
    let savingsRate := inputs.savingsInterestRate / 12
    let investmentRate := inputs.annualReturn / 12
    let months := inputs.timeHorizon * 12
    let fvFactorSavings := ((1 + savingsRate) ^ months - 1) / savingsRate
    let fvFactorInvestment := ((1 + investmentRate) ^ months - 1) / investmentRate
    let combinedFactor := 0.3 * fvFactorSavings + 0.7 * fvFactorInvestment
    let requiredMonthlySavings := gap / combinedFactor
    { requiredMonthlySavings := requiredMonthlySavings
      futureValueOfCurrentSavings := futureValueOfCurrentAssets
      inflationAdjustedFINumber := futureFINumber
      yearsToFI := some inputs.timeHorizon
      monthsToFI := 0
      totalMonthsToFI := some (inputs.timeHorizon * 12)
      calculatedFINumber := some futureFINumber
      baseFINumber := some baseFINumber
      suggestedMonthlySavings := requiredMonthlySavings * 0.3
      suggestedMonthlyInvestment := requiredMonthlySavings * 0.7
      totalFutureSavings := futureValueOfCash + requiredMonthlySavings * 0.3 * fvFactorSavings
      totalFutureInvestment :=
        futureValueOfInvestments + requiredMonthlySavings * 0.7 * fvFactorInvestment
      targetAtCompletion := none }
  else
    { requiredMonthlySavings := 0
      futureValueOfCurrentSavings := futureValueOfCurrentAssets
      inflationAdjustedFINumber := futureFINumber
      yearsToFI := some inputs.timeHorizon
      monthsToFI := 0
      totalMonthsToFI := some (inputs.timeHorizon * 12)
      calculatedFINumber := some futureFINumber
      baseFINumber := some baseFINumber
      suggestedMonthlySavings := 0
      suggestedMonthlyInvestment := 0
      totalFutureSavings := futureValueOfCash
      totalFutureInvestment := futureValueOfInvestments
      targetAtCompletion := none }

/-- Embedding of `calculateFinancialIndependence` (source lines 820-900): dispatch on the
mode tag, then the goal-based computation.  The mutable locals of the
`amountNeeded > 0` block (source lines 856-884) become the two branches of
the final `if`; `yearsToFI = amountNeeded <= 0 ? 0 : timeHorizon` (source
line 886) is folded into the corresponding branch. -/
def calculateFinancialIndependence (inputs : FinancialInputs) (mode : CalcMode) :
    CalculationResults :=
  match mode with
  | .timeBased => calculateTimeBasedStrategy inputs
  | .contributionBased => calculateContributionTimeline inputs
  | .goalBased =>
    let futureValueOfCash :=
      calculateFutureValue inputs.currentSavings inputs.savingsInterestRate inputs.timeHorizon
    let futureValueOfInvestments :=
      calculateFutureValue inputs.currentInvestments inputs.annualReturn inputs.timeHorizon
    let futureValueOfCurrentSavings := futureValueOfCash + futureValueOfInvestments
    let inflationAdjustedFINumber := inputs.targetFINumber
    let amountNeeded := inflationAdjustedFINumber - futureValueOfCurrentSavings
    if amountNeeded > 0 then
      let savingsRate := inputs.savingsInterestRate / 12
      let investmentRate := inputs.annualReturn / 12
      let months := inputs.timeHorizon * 12
      -- Source line 867: no zero-rate guard before dividing by `savingsRate`
      -- (in JavaScript a zero rate makes this 0/0 = NaN; here `x / 0 = 0`).
      let fvFactorSavings := ((1 + savingsRate) ^ months - 1) / savingsRate
      let fvFactorInvestment := ((1 + investmentRate) ^ months - 1) / investmentRate
      let combinedFactor := 0.3 * fvFactorSavings + 0.7 * fvFactorInvestment
      let requiredMonthlyTotal := amountNeeded / combinedFactor
      let suggestedMonthlySavings := requiredMonthlyTotal * 0.3
      let suggestedMonthlyInvestment := requiredMonthlyTotal * 0.7
      { requiredMonthlySavings := requiredMonthlyTotal
        futureValueOfCurrentSavings := futureValueOfCurrentSavings
        inflationAdjustedFINumber := inflationAdjustedFINumber
        yearsToFI := some inputs.timeHorizon
        monthsToFI := 0
        totalMonthsToFI := some (inputs.timeHorizon * 12)
        calculatedFINumber := none
        baseFINumber := none
        suggestedMonthlySavings := suggestedMonthlySavings
        suggestedMonthlyInvestment := suggestedMonthlyInvestment
        totalFutureSavings := futureValueOfCash + suggestedMonthlySavings * fvFactorSavings
        totalFutureInvestment :=
          futureValueOfInvestments + suggestedMonthlyInvestment * fvFactorInvestment
        targetAtCompletion := none }
    else
      { requiredMonthlySavings := 0
        futureValueOfCurrentSavings := futureValueOfCurrentSavings
        inflationAdjustedFINumber := inflationAdjustedFINumber
        yearsToFI := some 0
        monthsToFI := 0
        totalMonthsToFI := some 0
        calculatedFINumber := none
        baseFINumber := none
        suggestedMonthlySavings := 0
        suggestedMonthlyInvestment := 0
        totalFutureSavings := futureValueOfCash
        totalFutureInvestment := futureValueOfInvestments
        targetAtCompletion := none }

/-- One sample of the chart series produced by `generateTimelineData`
(source lines 1070-1074): `{ year, savings, target }`.  `savings` is the
output of `Math.round`, hence an integer. -/
structure TimelinePoint where
  year : ℕ
  savings : ℤ
  target : ℝ

/-- The monthly contributions used by `generateTimelineData` after its
sequential reassignments (source lines 1082-1096 and 1107-1111): in
contribution-based mode the user's `monthlySavings` / `monthlyInvestment`
(the line-1107 block overrides the line-1086 block), otherwise the
`suggestedMonthlySavings || 0` / `suggestedMonthlyInvestment || 0` of the
prior results, or `0` with no results. -/
def timelineContributions (inputs : FinancialInputs) (mode : CalcMode)
    (results : Option CalculationResults) : ℝ × ℝ :=
  match mode with
  | .contributionBased => (inputs.monthlySavings, inputs.monthlyInvestment)
  | _ =>
    match results with
    | some r => (r.suggestedMonthlySavings, r.suggestedMonthlyInvestment)
    | none => (0, 0)

/-- The `targetAmount` used by `generateTimelineData` after its sequential
reassignments (source lines 1084, 1091-1095, 1110, 1113-1115): starts as
`inputs.targetFINumber`; time-based mode with results takes
`results.baseFINumber || monthlyExpenses * 12 * 25` (the line-1113 block can
only re-assign the same truthy `baseFINumber` already taken at line 1094);
contribution-based mode takes `results?.baseFINumber || inputs.targetFINumber`.
JavaScript `||` falls through on `0`. -/
def timelineTargetAmount (inputs : FinancialInputs) (mode : CalcMode)
    (results : Option CalculationResults) : ℝ :=
  match mode, results with
  | .timeBased, some r =>
    match r.baseFINumber with
    | some b => if b = 0 then inputs.monthlyExpenses * 12 * 25 else b
    | none => inputs.monthlyExpenses * 12 * 25
  | .contributionBased, some r =>
    match r.baseFINumber with
    | some b => if b = 0 then inputs.targetFINumber else b
    | none => inputs.targetFINumber
  | _, _ => inputs.targetFINumber

/-- The `yearsToProject` horizon of `generateTimelineData` (source lines
1100-1105): contribution-based mode with results projects
`max(projectedYearsFromResults, timeHorizon)` where
`projectedYearsFromResults = Number.isFinite(yearsToFI) ? Math.ceil(yearsToFI)
: timeHorizon`; every other combination projects `timeHorizon`.  `yearsToFI`
is integral in every code path, so `Math.ceil` of it is the identity. -/
def yearsToProject (inputs : FinancialInputs) (mode : CalcMode)
    (results : Option CalculationResults) : ℕ :=
  match mode, results with
  | .contributionBased, some r =>
    max (match r.yearsToFI with
         | some y => y
         | none => inputs.timeHorizon)
      inputs.timeHorizon
  | _, _ => inputs.timeHorizon

/-- One pool of the year loop of `generateTimelineData` (source lines
1125-1128): the value after `m` iterations of
`value = value * (1 + monthlyRate) + contribution`. -/
def timelinePool (monthlyRate contribution start : ℝ) : ℕ → ℝ
  | 0 => start
  | m + 1 => timelinePool monthlyRate contribution start m * (1 + monthlyRate) + contribution

/-- Embedding of `generateTimelineData` (source lines 1066-1132).  The imperative year
loop pushes, for `year = 0 .. yearsToProject`, the sample holding the pool
state after `12 * year` monthly steps, then advances both pools by 12 steps;
its output list is the map below. -/
def generateTimelineData (inputs : FinancialInputs) (mode : CalcMode)
    (results : Option CalculationResults) : List TimelinePoint :=
  let monthlyInvestmentRate := inputs.annualReturn / 12
  let monthlySavingsRate := inputs.savingsInterestRate / 12
  let c := timelineContributions inputs mode results
  let targetAmount := timelineTargetAmount inputs mode results
  (List.range (yearsToProject inputs mode results + 1)).map fun year =>
    { year := year
      savings :=
        round (timelinePool monthlyInvestmentRate c.2 inputs.currentInvestments (12 * year) +
          timelinePool monthlySavingsRate c.1 inputs.currentSavings (12 * year))
      target := calculateInflationAdjustedAmount targetAmount inputs.inflationRate year }

/-! ## Concrete input records used by witnesses and counterexamples -/

/-- Goal-based input with both rates zero and no current assets
(`targetFINumber = 1200`, `timeHorizon = 1`). -/
def wGoalZeroRate : FinancialInputs :=
  { currentIncome := 0, monthlyExpenses := 0, currentSavings := 0, currentInvestments := 0
    targetFINumber := 1200, timeHorizon := 1, annualReturn := 0, inflationRate := 0
    monthlySavings := 0, monthlyInvestment := 0, savingsInterestRate := 0 }

/-- Contribution-based input whose probe first succeeds at month 10:
all rates zero, `monthlySavings = 1`, `targetFINumber = 10`. -/
def wReached : FinancialInputs :=
  { currentIncome := 0, monthlyExpenses := 0, currentSavings := 0, currentInvestments := 0
    targetFINumber := 10, timeHorizon := 1, annualReturn := 0, inflationRate := 0
    monthlySavings := 1, monthlyInvestment := 0, savingsInterestRate := 0 }

/-- Contribution-based input whose probe never succeeds: no assets, no
contributions, `targetFINumber = 10`. -/
def wUnreached : FinancialInputs :=
  { currentIncome := 0, monthlyExpenses := 0, currentSavings := 0, currentInvestments := 0
    targetFINumber := 10, timeHorizon := 1, annualReturn := 0, inflationRate := 0
    monthlySavings := 0, monthlyInvestment := 0, savingsInterestRate := 0 }

/-- Contribution-based input whose probe first succeeds at month 13 (13 is
not a multiple of 12), with `timeHorizon = 1`. -/
def wThirteen : FinancialInputs :=
  { currentIncome := 0, monthlyExpenses := 0, currentSavings := 0, currentInvestments := 0
    targetFINumber := 13, timeHorizon := 1, annualReturn := 0, inflationRate := 0
    monthlySavings := 1, monthlyInvestment := 0, savingsInterestRate := 0 }

/-- Contribution-based input already at its target at month 0, with the whole
contribution in the savings pool (`monthlySavings = 1`,
`monthlyInvestment = 0`). -/
def wEcho : FinancialInputs :=
  { currentIncome := 0, monthlyExpenses := 0, currentSavings := 100, currentInvestments := 0
    targetFINumber := 10, timeHorizon := 1, annualReturn := 0, inflationRate := 0
    monthlySavings := 1, monthlyInvestment := 0, savingsInterestRate := 0 }

/-- Goal-based input whose current assets already exceed the target. -/
def wMet : FinancialInputs :=
  { currentIncome := 0, monthlyExpenses := 0, currentSavings := 100, currentInvestments := 0
    targetFINumber := 10, timeHorizon := 1, annualReturn := 0, inflationRate := 0
    monthlySavings := 0, monthlyInvestment := 0, savingsInterestRate := 0 }

/-! ## Binary-search loop lemmas -/

/-- If the predicate fails on the whole remaining interval, the loop leaves
`result` and `found` untouched. -/
lemma searchLoop_const (P : ℤ → Prop) [DecidablePred P] :
    ∀ n low high result found, (high + 1 - low).toNat ≤ n →
      (∀ m, low ≤ m → m ≤ high → ¬ P m) →
      searchLoop P low high result found = (result, found) := by
  intro n
  induction n with
  | zero =>
    intro low high result found hn _hP
    rw [searchLoop, dif_neg (by omega)]
  | succ n ih =>
    intro low high result found hn hP
    rw [searchLoop]
    by_cases hlh : low ≤ high
    · rw [dif_pos hlh, if_neg (hP _ (by omega) (by omega))]
      exact ih _ _ _ _ (by omega) fun m h1 h2 => hP m (by omega) h2
    · rw [dif_neg hlh]

/-- Loop invariant of the binary search: with a monotone predicate that first
holds at `m0 ∈ [0, 1200]`, any state whose interval still brackets `m0` (or
whose recorded `result` already equals `m0`) ends at `(m0, true)`. -/
lemma searchLoop_least_aux (P : ℤ → Prop) [DecidablePred P] (m0 : ℤ)
    (hmono : ∀ m n : ℤ, 0 ≤ m → m ≤ n → n ≤ 1200 → P m → P n)
    (hm0 : 0 ≤ m0) (hm0' : m0 ≤ 1200) (hPm0 : P m0)
    (hmin : ∀ k : ℤ, 0 ≤ k → k < m0 → ¬ P k) :
    ∀ n low high result found, (high + 1 - low).toNat ≤ n →
      0 ≤ low → low ≤ m0 → high ≤ 1200 →
      ((found = true ∧ m0 ≤ result ∧ result ≤ 1200 ∧ (m0 ≤ high ∨ result = m0)) ∨
        (found = false ∧ result = 1200 ∧ m0 ≤ high)) →
      searchLoop P low high result found = (m0, true) := by
  intro n
  induction n with
  | zero =>
    intro low high result found hn h0 hlm hh inv
    rw [searchLoop, dif_neg (by omega)]
    rcases inv with ⟨hf, _h1, _h2, h3 | h3⟩ | ⟨_hf, _h1, h2⟩
    · omega
    · rw [hf, h3]
    · omega
  | succ n ih =>
    intro low high result found hn h0 hlm hh inv
    rw [searchLoop]
    by_cases hlh : low ≤ high
    · rw [dif_pos hlh]
      by_cases hmid : P ((low + high) / 2)
      · rw [if_pos hmid]
        have hup : m0 ≤ (low + high) / 2 := by
          by_contra hcon
          exact hmin _ (by omega) (by omega) hmid
        exact ih _ _ _ _ (by omega) h0 hlm (by omega)
          (Or.inl ⟨rfl, hup, by omega, by omega⟩)
      · rw [if_neg hmid]
        have hdown : (low + high) / 2 < m0 := by
          by_contra hcon
          exact hmid (hmono m0 _ hm0 (by omega) (by omega) hPm0)
        refine ih _ _ _ _ (by omega) (by omega) (by omega) hh ?_
        rcases inv with ⟨hf, h1, h2, h3⟩ | ⟨hf, h1, h2⟩
        · exact Or.inl ⟨hf, h1, h2, h3⟩
        · exact Or.inr ⟨hf, h1, h2⟩
    · rw [dif_neg hlh]
      rcases inv with ⟨hf, _h1, _h2, h3 | h3⟩ | ⟨_hf, _h1, h2⟩
      · omega
      · rw [hf, h3]
      · omega

/-- Correctness of the full search run `searchLoop P 0 1200 1200 false`
(source lines 1025-1041): for a monotone predicate whose least witness in
`[0, 1200]` is `m0`, the run returns `(m0, true)`. -/
lemma searchLoop_least (P : ℤ → Prop) [DecidablePred P] (m0 : ℤ)
    (hmono : ∀ m n : ℤ, 0 ≤ m → m ≤ n → n ≤ 1200 → P m → P n)
    (hm0 : 0 ≤ m0) (hm0' : m0 ≤ 1200) (hPm0 : P m0)
    (hmin : ∀ k : ℤ, 0 ≤ k → k < m0 → ¬ P k) :
    searchLoop P 0 1200 1200 false = (m0, true) :=
  searchLoop_least_aux P m0 hmono hm0 hm0' hPm0 hmin 1201 0 1200 1200 false
    (by omega) (by omega) hm0 (by omega) (Or.inr ⟨rfl, rfl, hm0'⟩)

/-- If the predicate fails everywhere on `[0, 1200]`, the full search run
returns the initial `(1200, false)`. -/
lemma searchLoop_notFound (P : ℤ → Prop) [DecidablePred P]
    (h : ∀ m : ℤ, 0 ≤ m → m ≤ 1200 → ¬ P m) :
    searchLoop P 0 1200 1200 false = (1200, false) :=
  searchLoop_const P 1201 0 1200 1200 false (by omega) fun m h1 h2 => h m h1 h2

/-! ## Contribution-based strategy lemmas -/

/-- With a monotone probe whose least success in `[0, 1200]` is `m0`,
`calculateContributionTimeline` reports `m0` months, `m0 / 12` years and
`m0 % 12` leftover months (covering both the month-0 early return and the
binary-search path). -/
lemma contributionTimeline_fields (inputs : FinancialInputs) (m0 : ℕ)
    (hmono : ∀ m n : ℕ, m ≤ n → n ≤ 1200 → probe inputs m → probe inputs n)
    (hm0 : m0 ≤ 1200) (hPm0 : probe inputs m0)
    (hmin : ∀ k : ℕ, k < m0 → ¬ probe inputs k) :
    (calculateContributionTimeline inputs).totalMonthsToFI = some m0 ∧
    (calculateContributionTimeline inputs).yearsToFI = some (m0 / 12) ∧
    (calculateContributionTimeline inputs).monthsToFI = m0 % 12 := by
  by_cases hp0 : probe inputs 0
  · have hm00 : m0 = 0 := by
      by_contra h
      exact hmin 0 (by omega) hp0
    subst hm00
    have hp0' : (projectPortfolio inputs 0).total ≥ (projectPortfolio inputs 0).target := hp0
    simp only [calculateContributionTimeline]
    rw [if_pos hp0']
    exact ⟨rfl, rfl, rfl⟩
  · have hsl : searchLoop (fun m => probe inputs m.toNat) 0 1200 1200 false =
        ((m0 : ℤ), true) := by
      apply searchLoop_least
      · intro m n hm hmn hn hPm
        exact hmono m.toNat n.toNat (by omega) (by omega) hPm
      · omega
      · exact_mod_cast hm0
      · simpa using hPm0
      · intro k hk0 hk
        simpa using hmin k.toNat (by omega)
    have hp0' : ¬ (projectPortfolio inputs 0).total ≥ (projectPortfolio inputs 0).target := hp0
    simp only [calculateContributionTimeline]
    rw [if_neg hp0', hsl]
    simp

/-- When the month-0 probe fails, the duration fields of
`calculateContributionTimeline` are read off the binary-search output. -/
lemma contributionTimeline_search_fields (inputs : FinancialInputs)
    (hc : ¬ probe inputs 0) :
    (calculateContributionTimeline inputs).totalMonthsToFI =
      (if (searchLoop (fun m => probe inputs m.toNat) 0 1200 1200 false).2 then
        some (searchLoop (fun m => probe inputs m.toNat) 0 1200 1200 false).1.toNat
      else none) ∧
    (calculateContributionTimeline inputs).yearsToFI =
      (if (searchLoop (fun m => probe inputs m.toNat) 0 1200 1200 false).2 then
        some ((searchLoop (fun m => probe inputs m.toNat) 0 1200 1200 false).1.toNat / 12)
      else none) ∧
    (calculateContributionTimeline inputs).monthsToFI =
      (if (searchLoop (fun m => probe inputs m.toNat) 0 1200 1200 false).2 then
        (searchLoop (fun m => probe inputs m.toNat) 0 1200 1200 false).1.toNat % 12
      else 0) := by
  have hc' : ¬ (projectPortfolio inputs 0).total ≥ (projectPortfolio inputs 0).target := hc
  simp only [calculateContributionTimeline]
  rw [if_neg hc']
  exact ⟨rfl, rfl, rfl⟩

/-- On `wReached` the probe succeeds exactly from month 10 on. -/
lemma probe_wReached (m : ℕ) : probe wReached m ↔ (10 : ℝ) ≤ m := by
  norm_num [probe, projectPortfolio, baseTarget, wReached, Real.one_rpow]

/-- On `wUnreached` the probe never succeeds. -/
lemma probe_wUnreached (m : ℕ) : ¬ probe wUnreached m := by
  norm_num [probe, projectPortfolio, baseTarget, wUnreached, Real.one_rpow]

/-- On `wThirteen` the probe succeeds exactly from month 13 on. -/
lemma probe_wThirteen (m : ℕ) : probe wThirteen m ↔ (13 : ℝ) ≤ m := by
  norm_num [probe, projectPortfolio, baseTarget, wThirteen, Real.one_rpow]

/-- On `wEcho` the probe already succeeds at month 0. -/
lemma probe_wEcho_zero : probe wEcho 0 := by
  norm_num [probe, projectPortfolio, baseTarget, wEcho, Real.one_rpow]

/-- The goal-based branch always emits a required total `r` with the
`suggested` fields equal to `r * 0.3` and `r * 0.7` (source lines 872-875). -/
lemma goalBased_split (inputs : FinancialInputs) : ∃ r : ℝ,
    (calculateFinancialIndependence inputs .goalBased).requiredMonthlySavings = r ∧
    (calculateFinancialIndependence inputs .goalBased).suggestedMonthlySavings = r * 0.3 ∧
    (calculateFinancialIndependence inputs .goalBased).suggestedMonthlyInvestment = r * 0.7 := by
  simp only [calculateFinancialIndependence]
  split_ifs
  · exact ⟨_, rfl, rfl, rfl⟩
  · exact ⟨0, rfl, by norm_num, by norm_num⟩

/-- The time-based strategy always emits a required total `r` with the
`suggested` fields equal to `r * 0.3` and `r * 0.7` (source lines 955-956). -/
lemma timeBased_split (inputs : FinancialInputs) : ∃ r : ℝ,
    (calculateFinancialIndependence inputs .timeBased).requiredMonthlySavings = r ∧
    (calculateFinancialIndependence inputs .timeBased).suggestedMonthlySavings = r * 0.3 ∧
    (calculateFinancialIndependence inputs .timeBased).suggestedMonthlyInvestment = r * 0.7 := by
  simp only [calculateFinancialIndependence, calculateTimeBasedStrategy]
  split_ifs
  · exact ⟨_, rfl, rfl, rfl⟩
  · exact ⟨0, rfl, by norm_num, by norm_num⟩

/-- The contribution-based strategy echoes the user's contributions in the
`suggested` fields and their sum in `requiredMonthlySavings` (source lines
1010, 1016-1017, 1048, 1054-1055). -/
lemma contributionBased_split (inputs : FinancialInputs) :
    (calculateFinancialIndependence inputs .contributionBased).suggestedMonthlySavings =
      inputs.monthlySavings ∧
    (calculateFinancialIndependence inputs .contributionBased).suggestedMonthlyInvestment =
      inputs.monthlyInvestment ∧
    (calculateFinancialIndependence inputs .contributionBased).requiredMonthlySavings =
      inputs.monthlySavings + inputs.monthlyInvestment := by
  simp only [calculateFinancialIndependence, calculateContributionTimeline]
  split_ifs <;> exact ⟨rfl, rfl, rfl⟩

/-! ## Claim theorems -/

/-- C1 (code evaluation at the failing input): with both rates zero and no
current assets the goal-based strategy does not return
`targetFINumber / (timeHorizon × 12)` (here `1200 / 12 = 100`): the annuity
factors at source line 867 are formed without the zero-rate guard, dividing
zero by zero (`NaN` in JavaScript, `0` under this model's `x / 0 = 0`), so
`requiredMonthlySavings` is not the claimed exact quotient. -/
theorem C1_zero_rate_unguarded_division :
    (calculateFinancialIndependence wGoalZeroRate .goalBased).requiredMonthlySavings = 0 ∧
    wGoalZeroRate.targetFINumber / ((wGoalZeroRate.timeHorizon : ℝ) * 12) = 100 ∧
    (0 : ℝ) ≠ 100 := by
  refine ⟨?_, by norm_num [wGoalZeroRate], by norm_num⟩
  have hpos : wGoalZeroRate.targetFINumber -
      (calculateFutureValue wGoalZeroRate.currentSavings wGoalZeroRate.savingsInterestRate
          wGoalZeroRate.timeHorizon +
        calculateFutureValue wGoalZeroRate.currentInvestments wGoalZeroRate.annualReturn
          wGoalZeroRate.timeHorizon) > 0 := by
    norm_num [calculateFutureValue, wGoalZeroRate]
  simp only [calculateFinancialIndependence]
  rw [if_pos hpos]
  norm_num [calculateFutureValue, wGoalZeroRate]

/-- C2: for every input whose probe success predicate
`m ↦ totalAssets(m) ≥ targetAtMonths(m)` is monotone and succeeds at some
month in `[0, 1200]`, the contribution-based discrete binary search returns
the least month in `[0, 1200]` satisfying the inequality, and the month just
before the returned one fails it unless the answer is 0. -/
theorem C2_root_finder_minimality (inputs : FinancialInputs)
    (hmono : ∀ m n : ℕ, m ≤ n → n ≤ 1200 → probe inputs m → probe inputs n)
    (hex : ∃ m, m ≤ 1200 ∧ probe inputs m) :
    ∃ m0, (calculateContributionTimeline inputs).totalMonthsToFI = some m0 ∧
      m0 ≤ 1200 ∧ probe inputs m0 ∧ (∀ k, k < m0 → ¬ probe inputs k) ∧
      (m0 = 0 ∨ ¬ probe inputs (m0 - 1)) := by
  obtain ⟨m, hm, hPm⟩ := hex
  have hexP : ∃ k, probe inputs k := ⟨m, hPm⟩
  have hspec : probe inputs (Nat.find hexP) := Nat.find_spec hexP
  have hminP : ∀ k, k < Nat.find hexP → ¬ probe inputs k := fun k hk => Nat.find_min hexP hk
  have hle : Nat.find hexP ≤ m := Nat.find_min' hexP hPm
  obtain ⟨h1, _h2, _h3⟩ :=
    contributionTimeline_fields inputs (Nat.find hexP) hmono (by omega) hspec hminP
  refine ⟨Nat.find hexP, h1, by omega, hspec, hminP, ?_⟩
  by_cases h : Nat.find hexP = 0
  · exact Or.inl h
  · exact Or.inr (hminP (Nat.find hexP - 1) (by omega))

/-- Witness for C2 at `wReached` (probe succeeds exactly from month 10). -/
theorem C2_root_finder_minimality_witness :
    ((∀ m n : ℕ, m ≤ n → n ≤ 1200 → probe wReached m → probe wReached n) ∧
      (∃ m, m ≤ 1200 ∧ probe wReached m)) ∧
    ∃ m0, (calculateContributionTimeline wReached).totalMonthsToFI = some m0 ∧
      m0 ≤ 1200 ∧ probe wReached m0 ∧ (∀ k, k < m0 → ¬ probe wReached k) ∧
      (m0 = 0 ∨ ¬ probe wReached (m0 - 1)) := by
  have hmono : ∀ m n : ℕ, m ≤ n → n ≤ 1200 → probe wReached m → probe wReached n := by
    intro m n hmn _ h
    rw [probe_wReached] at h ⊢
    exact le_trans h (by exact_mod_cast hmn)
  have hex : ∃ m, m ≤ 1200 ∧ probe wReached m :=
    ⟨10, by norm_num, (probe_wReached 10).2 (by norm_num)⟩
  exact ⟨⟨hmono, hex⟩, C2_root_finder_minimality wReached hmono hex⟩

/-- C3: if the probe never succeeds on `[0, 1200]`, the contribution-based
result reports `yearsToFI` and `totalMonthsToFI` as `Infinity` (modelled
`none`) while `totalFutureSavings`, `totalFutureInvestment` and
`targetAtCompletion` carry the month-1200 projection values. -/
theorem C3_unreached_reporting (inputs : FinancialInputs)
    (h : ∀ m : ℕ, m ≤ 1200 → ¬ probe inputs m) :
    (calculateContributionTimeline inputs).yearsToFI = none ∧
    (calculateContributionTimeline inputs).totalMonthsToFI = none ∧
    (calculateContributionTimeline inputs).totalFutureSavings =
      (projectPortfolio inputs 1200).savingsFutureValue ∧
    (calculateContributionTimeline inputs).totalFutureInvestment =
      (projectPortfolio inputs 1200).investmentsFutureValue ∧
    (calculateContributionTimeline inputs).targetAtCompletion =
      some (projectPortfolio inputs 1200).target := by
  have hsl : searchLoop (fun m => probe inputs m.toNat) 0 1200 1200 false = (1200, false) :=
    searchLoop_notFound _ fun m h1 h2 => h m.toNat (by omega)
  have hp0' : ¬ (projectPortfolio inputs 0).total ≥ (projectPortfolio inputs 0).target :=
    h 0 (by omega)
  simp only [calculateContributionTimeline]
  rw [if_neg hp0', hsl]
  exact ⟨rfl, rfl, rfl, rfl, rfl⟩

/-- Witness for C3 at `wUnreached` (probe never succeeds). -/
theorem C3_unreached_reporting_witness :
    (∀ m : ℕ, m ≤ 1200 → ¬ probe wUnreached m) ∧
    ((calculateContributionTimeline wUnreached).yearsToFI = none ∧
      (calculateContributionTimeline wUnreached).totalMonthsToFI = none ∧
      (calculateContributionTimeline wUnreached).totalFutureSavings =
        (projectPortfolio wUnreached 1200).savingsFutureValue ∧
      (calculateContributionTimeline wUnreached).totalFutureInvestment =
        (projectPortfolio wUnreached 1200).investmentsFutureValue ∧
      (calculateContributionTimeline wUnreached).targetAtCompletion =
        some (projectPortfolio wUnreached 1200).target) :=
  ⟨fun m _ => probe_wUnreached m,
    C3_unreached_reporting wUnreached fun m _ => probe_wUnreached m⟩

/-- C4: the contribution-based baseline target is `targetFINumber` when
non-zero and `monthlyExpenses × 12 × 25` otherwise, and the target probed at
month `m` is that baseline times `(1 + r)^m` with
`r = (1 + inflationRate)^(1/12) − 1` the monthly-equivalent inflation rate. -/
theorem C4_contribution_target_definition (inputs : FinancialInputs) :
    (calculateContributionTimeline inputs).baseFINumber =
      some (if inputs.targetFINumber = 0 then inputs.monthlyExpenses * 12 * 25
        else inputs.targetFINumber) ∧
    ∀ m : ℕ, (projectPortfolio inputs m).target =
      (if inputs.targetFINumber = 0 then inputs.monthlyExpenses * 12 * 25
        else inputs.targetFINumber) *
        (1 + ((1 + inputs.inflationRate) ^ ((1 : ℝ) / 12) - 1)) ^ m := by
  constructor
  · simp only [calculateContributionTimeline, baseTarget]
    split_ifs <;> rfl
  · intro m
    rfl

/-- C10: in every mode, a finite `totalMonthsToFI` decomposes as
`yearsToFI × 12 + monthsToFI`. -/
theorem C10_duration_decomposition (inputs : FinancialInputs) (mode : CalcMode) (t : ℕ)
    (h : (calculateFinancialIndependence inputs mode).totalMonthsToFI = some t) :
    ∃ y, (calculateFinancialIndependence inputs mode).yearsToFI = some y ∧
      t = y * 12 + (calculateFinancialIndependence inputs mode).monthsToFI := by
  cases mode with
  | goalBased =>
    simp only [calculateFinancialIndependence] at h ⊢
    split_ifs at h ⊢ with hc
    · refine ⟨inputs.timeHorizon, rfl, ?_⟩
      have h' : inputs.timeHorizon * 12 = t := by simpa using h
      simpa using h'.symm
    · refine ⟨0, rfl, ?_⟩
      have h' : (0 : ℕ) = t := by simpa using h
      simpa using h'.symm
  | timeBased =>
    simp only [calculateFinancialIndependence, calculateTimeBasedStrategy] at h ⊢
    split_ifs at h ⊢ with hc
    all_goals
      refine ⟨inputs.timeHorizon, rfl, ?_⟩
      have h' : inputs.timeHorizon * 12 = t := by simpa using h
      simpa using h'.symm
  | contributionBased =>
    show ∃ y, (calculateContributionTimeline inputs).yearsToFI = some y ∧
      t = y * 12 + (calculateContributionTimeline inputs).monthsToFI
    have h' : (calculateContributionTimeline inputs).totalMonthsToFI = some t := h
    by_cases hc : probe inputs 0
    · have hc' : (projectPortfolio inputs 0).total ≥ (projectPortfolio inputs 0).target := hc
      simp only [calculateContributionTimeline] at h' ⊢
      rw [if_pos hc'] at h' ⊢
      refine ⟨0, rfl, ?_⟩
      have h0 : (0 : ℕ) = t := by simpa using h'
      simpa using h0.symm
    · obtain ⟨hTot, hY, hM⟩ := contributionTimeline_search_fields inputs hc
      rw [hTot] at h'
      rw [hY, hM]
      split_ifs at h' ⊢ with hfound
      simp only [Option.some_inj] at h'
      exact ⟨_, rfl, by omega⟩

/-- Witness for C10 in goal-based mode at `wMet` (finite month count 0). -/
theorem C10_duration_decomposition_witness :
    (calculateFinancialIndependence wMet .goalBased).totalMonthsToFI = some 0 ∧
    ∃ y, (calculateFinancialIndependence wMet .goalBased).yearsToFI = some y ∧
      0 = y * 12 + (calculateFinancialIndependence wMet .goalBased).monthsToFI := by
  have hneg : ¬ (wMet.targetFINumber -
      (calculateFutureValue wMet.currentSavings wMet.savingsInterestRate wMet.timeHorizon +
        calculateFutureValue wMet.currentInvestments wMet.annualReturn wMet.timeHorizon) > 0) := by
    norm_num [calculateFutureValue, wMet]
  have h : (calculateFinancialIndependence wMet .goalBased).totalMonthsToFI = some 0 := by
    simp only [calculateFinancialIndependence]
    rw [if_neg hneg]
  exact ⟨h, C10_duration_decomposition wMet .goalBased 0 h⟩

/-- C5 counterexample: on `wThirteen` the time-to-goal is 13 months, so the
claimed horizon `max(⌈13/12⌉, timeHorizon) = 2` would give 3 samples, but the
code floors (`yearsToFI = ⌊13/12⌋ = 1`, then `Math.ceil` of the integer is a
no-op) and produces only 2 samples. -/
theorem C5_horizon_counterexample :
    (generateTimelineData wThirteen .contributionBased
        (some (calculateContributionTimeline wThirteen))).length = 2 ∧
    (calculateContributionTimeline wThirteen).totalMonthsToFI = some 13 ∧
    max (Nat.ceil ((13 : ℝ) / 12)) wThirteen.timeHorizon + 1 = 3 ∧
    (2 : ℕ) ≠ 3 := by
  have hmono : ∀ m n : ℕ, m ≤ n → n ≤ 1200 → probe wThirteen m → probe wThirteen n := by
    intro m n hmn _ h
    rw [probe_wThirteen] at h ⊢
    exact le_trans h (by exact_mod_cast hmn)
  obtain ⟨hTot, hY, _hM⟩ := contributionTimeline_fields wThirteen 13 hmono (by norm_num)
    ((probe_wThirteen 13).2 (by norm_num))
    (fun k hk => by
      rw [probe_wThirteen]
      push_neg
      exact_mod_cast hk)
  have hY1 : (calculateContributionTimeline wThirteen).yearsToFI = some 1 := by
    rw [hY]
  have hceil : Nat.ceil ((13 : ℝ) / 12) = 2 := by
    rw [Nat.ceil_eq_iff (by norm_num)]
    norm_num
  refine ⟨?_, hTot, by rw [hceil]; rfl, by norm_num⟩
  simp only [generateTimelineData, yearsToProject, hY1, List.length_map, List.length_range]
  rfl

/-- C5 amended: the series has exactly one sample per whole year from 0 to
the horizon inclusive, where in contribution-based mode (with results) the
horizon is the larger of the whole-years component `yearsToFI` of the
computed time-to-goal (already rounded down to whole years; infinite maps to
`timeHorizon`) and the user's `timeHorizon`, and in every other case it is
`timeHorizon`. -/
theorem C5_amended_horizon_rule (inputs : FinancialInputs) (mode : CalcMode)
    (results : Option CalculationResults) :
    (generateTimelineData inputs mode results).map TimelinePoint.year =
      List.range (yearsToProject inputs mode results + 1) ∧
    yearsToProject inputs mode results =
      (match mode, results with
       | CalcMode.contributionBased, some r =>
         max (r.yearsToFI.getD inputs.timeHorizon) inputs.timeHorizon
       | _, _ => inputs.timeHorizon) := by
  constructor
  · simp only [generateTimelineData, List.map_map]
    exact List.map_id _
  · cases mode <;> rcases results with _ | r <;> simp only [yearsToProject]
    rcases hr : r.yearsToFI with _ | y <;> simp [hr, Option.getD]

/-- C6: the time-based baseline is `monthlyExpenses × 12 × 25` independently
of all other inputs, the future target is the baseline inflated over
`timeHorizon` at the annual inflation rate, and both are retained in the
result as `baseFINumber` and `calculatedFINumber`. -/
theorem C6_time_based_baseline (inputs : FinancialInputs) :
    (calculateFinancialIndependence inputs .timeBased).baseFINumber =
      some (inputs.monthlyExpenses * 12 * 25) ∧
    (calculateFinancialIndependence inputs .timeBased).calculatedFINumber =
      some (inputs.monthlyExpenses * 12 * 25 * (1 + inputs.inflationRate) ^ inputs.timeHorizon) := by
  simp only [calculateFinancialIndependence, calculateTimeBasedStrategy,
    calculateInflationAdjustedAmount]
  split_ifs <;> exact ⟨rfl, rfl⟩

/-- C7: in goal-based mode, when the future values of the two pools reach the
target the required contribution and the reported duration are 0; when they
fall short the reported `yearsToFI` is the full `timeHorizon`. -/
theorem C7_goal_based_met_and_horizon (inputs : FinancialInputs) :
    (calculateFutureValue inputs.currentSavings inputs.savingsInterestRate inputs.timeHorizon +
        calculateFutureValue inputs.currentInvestments inputs.annualReturn inputs.timeHorizon ≥
        inputs.targetFINumber →
      (calculateFinancialIndependence inputs .goalBased).requiredMonthlySavings = 0 ∧
      (calculateFinancialIndependence inputs .goalBased).yearsToFI = some 0 ∧
      (calculateFinancialIndependence inputs .goalBased).totalMonthsToFI = some 0) ∧
    (calculateFutureValue inputs.currentSavings inputs.savingsInterestRate inputs.timeHorizon +
        calculateFutureValue inputs.currentInvestments inputs.annualReturn inputs.timeHorizon <
        inputs.targetFINumber →
      (calculateFinancialIndependence inputs .goalBased).yearsToFI =
        some inputs.timeHorizon) := by
  constructor
  · intro hge
    have hneg : ¬ (inputs.targetFINumber -
        (calculateFutureValue inputs.currentSavings inputs.savingsInterestRate inputs.timeHorizon +
          calculateFutureValue inputs.currentInvestments inputs.annualReturn inputs.timeHorizon) >
        0) := by
      simp only [not_lt]
      linarith
    simp only [calculateFinancialIndependence]
    rw [if_neg hneg]
    exact ⟨rfl, rfl, rfl⟩
  · intro hlt
    have hpos : inputs.targetFINumber -
        (calculateFutureValue inputs.currentSavings inputs.savingsInterestRate inputs.timeHorizon +
          calculateFutureValue inputs.currentInvestments inputs.annualReturn inputs.timeHorizon) >
        0 := by linarith
    simp only [calculateFinancialIndependence]
    rw [if_pos hpos]

/-- Witness for C7 at `wMet` (assets 100 against target 10). -/
theorem C7_goal_based_met_and_horizon_witness :
    (calculateFutureValue wMet.currentSavings wMet.savingsInterestRate wMet.timeHorizon +
        calculateFutureValue wMet.currentInvestments wMet.annualReturn wMet.timeHorizon ≥
        wMet.targetFINumber) ∧
    ((calculateFinancialIndependence wMet .goalBased).requiredMonthlySavings = 0 ∧
      (calculateFinancialIndependence wMet .goalBased).yearsToFI = some 0 ∧
      (calculateFinancialIndependence wMet .goalBased).totalMonthsToFI = some 0) := by
  have hge : calculateFutureValue wMet.currentSavings wMet.savingsInterestRate wMet.timeHorizon +
      calculateFutureValue wMet.currentInvestments wMet.annualReturn wMet.timeHorizon ≥
      wMet.targetFINumber := by
    norm_num [calculateFutureValue, wMet]
  exact ⟨hge, (C7_goal_based_met_and_horizon wMet).1 hge⟩

/-- C8 counterexample: in contribution-based mode the suggested amounts echo
the user's contributions, not a 30/70 split of the combined contribution —
at `wEcho` (contributions 1 and 0) the suggested savings is the full 1, not
`0.3 × 1`. -/
theorem C8_no_30_70_in_contribution_mode :
    (calculateFinancialIndependence wEcho .contributionBased).requiredMonthlySavings = 1 ∧
    (calculateFinancialIndependence wEcho .contributionBased).suggestedMonthlySavings = 1 ∧
    ¬ (calculateFinancialIndependence wEcho .contributionBased).suggestedMonthlySavings =
      0.3 * (calculateFinancialIndependence wEcho .contributionBased).requiredMonthlySavings := by
  obtain ⟨h1, _h2, h3⟩ := contributionBased_split wEcho
  rw [h1, h3]
  norm_num [wEcho]

/-- C8 amended: goal-based and time-based results satisfy the 30%/70% split
of `requiredMonthlySavings` exactly and the two suggestions sum to it;
contribution-based results echo the user's `monthlySavings` /
`monthlyInvestment`, which also sum to `requiredMonthlySavings` exactly. -/
theorem C8_amended_split_policy (inputs : FinancialInputs) :
    ((calculateFinancialIndependence inputs .goalBased).suggestedMonthlySavings =
        0.3 * (calculateFinancialIndependence inputs .goalBased).requiredMonthlySavings ∧
      (calculateFinancialIndependence inputs .goalBased).suggestedMonthlyInvestment =
        0.7 * (calculateFinancialIndependence inputs .goalBased).requiredMonthlySavings ∧
      (calculateFinancialIndependence inputs .goalBased).suggestedMonthlySavings +
          (calculateFinancialIndependence inputs .goalBased).suggestedMonthlyInvestment =
        (calculateFinancialIndependence inputs .goalBased).requiredMonthlySavings) ∧
    ((calculateFinancialIndependence inputs .timeBased).suggestedMonthlySavings =
        0.3 * (calculateFinancialIndependence inputs .timeBased).requiredMonthlySavings ∧
      (calculateFinancialIndependence inputs .timeBased).suggestedMonthlyInvestment =
        0.7 * (calculateFinancialIndependence inputs .timeBased).requiredMonthlySavings ∧
      (calculateFinancialIndependence inputs .timeBased).suggestedMonthlySavings +
          (calculateFinancialIndependence inputs .timeBased).suggestedMonthlyInvestment =
        (calculateFinancialIndependence inputs .timeBased).requiredMonthlySavings) ∧
    ((calculateFinancialIndependence inputs .contributionBased).suggestedMonthlySavings =
        inputs.monthlySavings ∧
      (calculateFinancialIndependence inputs .contributionBased).suggestedMonthlyInvestment =
        inputs.monthlyInvestment ∧
      (calculateFinancialIndependence inputs .contributionBased).suggestedMonthlySavings +
          (calculateFinancialIndependence inputs .contributionBased).suggestedMonthlyInvestment =
        (calculateFinancialIndependence inputs .contributionBased).requiredMonthlySavings) := by
  refine ⟨?_, ?_, ?_⟩
  · obtain ⟨r, h1, h2, h3⟩ := goalBased_split inputs
    rw [h1, h2, h3]
    refine ⟨by ring, by ring, by ring⟩
  · obtain ⟨r, h1, h2, h3⟩ := timeBased_split inputs
    rw [h1, h2, h3]
    refine ⟨by ring, by ring, by ring⟩
  · obtain ⟨h1, h2, h3⟩ := contributionBased_split inputs
    rw [h1, h2, h3]
    exact ⟨rfl, rfl, rfl⟩

/-- C9: every series sample carries a `totalAssets` value rounded to the
nearest whole unit (JavaScript `Math.round`, i.e. `⌊x + 1/2⌋`) and an
unrounded target equal to the mode-appropriate baseline times
`(1 + inflationRate)` raised to the sample's year (annual-power convention,
not the monthly-equivalent rate). -/
theorem C9_series_conventions (inputs : FinancialInputs) (mode : CalcMode)
    (results : Option CalculationResults) :
    (generateTimelineData inputs mode results).map (fun p => (p.year, p.savings, p.target)) =
      (List.range (yearsToProject inputs mode results + 1)).map (fun year =>
        (year,
          round (timelinePool (inputs.annualReturn / 12)
              (timelineContributions inputs mode results).2 inputs.currentInvestments
              (12 * year) +
            timelinePool (inputs.savingsInterestRate / 12)
              (timelineContributions inputs mode results).1 inputs.currentSavings
              (12 * year)),
          timelineTargetAmount inputs mode results * (1 + inputs.inflationRate) ^ year)) := by
  simp only [generateTimelineData, calculateInflationAdjustedAmount, List.map_map]
  rfl

end
